import Mathlib

/-!
Verification of the MDF-4 signal extraction and export engine
(`mdf42adx/PrepareMDF4FileForADX.py`) against its specification.

The Python program is shallowly embedded below. Conventions:
  * numeric payloads (timestamps, samples, the `astype(np.double)` cast and
    the `float(...)` coercion) are modeled as exact rationals, so casts are
    value preserving;
  * a numpy sample array is homogeneous, so a signal's samples are a sum of
    three list shapes (numeric, strings, records), mirroring the dtype
    dispatch in `extractSignalsByType`;
  * a Python exception that a function lets escape is modeled by `Option`
    (`none` = the call raised); an exception a function catches never leaves
    the embedding;
  * file-system writes are modeled by returning the value that would be
    written (tables, CSV files, the manifest).
-/

namespace Mdf42Adx

/-- Decimal rendering of a natural number, the model of Python's `str(counter)`
inside an f-string. -/
def natToString (n : Nat) : String :=
  if n = 0 then "0" else String.mk (((Nat.digits 10 n).map Nat.digitChar).reverse)

theorem digitChar_inj_lt10 : ∀ a < 10, ∀ b < 10,
    Nat.digitChar a = Nat.digitChar b → a = b := by decide

theorem map_digitChar_inj : ∀ (l₁ l₂ : List Nat), (∀ d ∈ l₁, d < 10) →
    (∀ d ∈ l₂, d < 10) → l₁.map Nat.digitChar = l₂.map Nat.digitChar → l₁ = l₂ := by
  intro l₁
  induction l₁ with
  | nil => intro l₂ _ _ h; cases l₂ <;> simp_all
  | cons a t ih =>
    intro l₂ h₁ h₂ h
    cases l₂ with
    | nil => simp_all
    | cons b t₂ =>
      simp only [List.map_cons, List.cons.injEq] at h
      have ha : a = b := digitChar_inj_lt10 a (h₁ a (by simp)) b (h₂ b (by simp)) h.1
      have ht : t = t₂ := ih t₂ (fun d hd => h₁ d (by simp [hd]))
        (fun d hd => h₂ d (by simp [hd])) h.2
      simp [ha, ht]

theorem natToString_injective : Function.Injective natToString := by
  have key : ∀ n : Nat, n ≠ 0 →
      String.mk (((Nat.digits 10 n).map Nat.digitChar).reverse) = "0" → False := by
    intro n hn h
    have hd : ((Nat.digits 10 n).map Nat.digitChar).reverse = ['0'] := by
      have := congrArg String.data h
      simpa using this
    have hmap : (Nat.digits 10 n).map Nat.digitChar = ['0'] := by
      have := congrArg List.reverse hd
      simpa using this
    have hdig : Nat.digits 10 n = [0] := by
      have h0 : ([0] : List Nat).map Nat.digitChar = ['0'] := by decide
      refine map_digitChar_inj _ _ (fun d hd => Nat.digits_lt_base (by norm_num) hd)
        (by decide) ?_
      rw [hmap, h0]
    have : n = 0 := by
      have := Nat.ofDigits_digits 10 n
      rw [hdig] at this
      simpa using this.symm
    exact hn this
  intro n m h
  by_cases hn : n = 0 <;> by_cases hm : m = 0
  · rw [hn, hm]
  · exact absurd (by simpa [natToString, hn, hm] using h.symm) (fun hh => key m hm hh)
  · exact absurd (by simpa [natToString, hn, hm] using h) (fun hh => key n hn hh)
  · have h' : String.mk (((Nat.digits 10 n).map Nat.digitChar).reverse) =
        String.mk (((Nat.digits 10 m).map Nat.digitChar).reverse) := by
      simpa [natToString, hn, hm] using h
    have hdata := congrArg String.data h'
    simp only at hdata
    have hrev := congrArg List.reverse hdata
    simp only [List.reverse_reverse] at hrev
    have hdig := map_digitChar_inj _ _
      (fun d hd => Nat.digits_lt_base (by norm_num) hd)
      (fun d hd => Nat.digits_lt_base (by norm_num) hd) hrev
    exact Nat.digits.injective 10 hdig

theorem string_data_append (a b : String) : (a ++ b).data = a.data ++ b.data := by
  cases a; cases b; rfl

theorem string_ext {a b : String} (h : a.data = b.data) : a = b := by
  cases a; cases b; simp only at h; rw [h]

/-! ## Data model (signals, container, manifest) -/

/-- A signal's sample array.  numpy arrays are homogeneous, so the three
dtype cases distinguished by `extractSignalsByType` (`np.record`,
`np.number`, anything else, read as strings) are a sum at the array level.
A record sample is its list of (field name, field value) pairs. -/
inductive Samples
  | numeric (xs : List ℚ)
  | strings (ss : List String)
  | records (rs : List (List (String × String)))
deriving DecidableEq

/-- Number of elements of the sample array (`len(signal.samples)`). -/
def Samples.size : Samples → Nat
  | .numeric xs => xs.length
  | .strings ss => ss.length
  | .records rs => rs.length

/-- The `signal.source` descriptor exposed by the container reader.
`source_type` and `bus_type` are the raw numeric codes that the external
`v4c` tables render to strings. -/
structure Source where
  name : String
  source_type : Nat
  bus_type : Nat
deriving DecidableEq

/-- One signal as yielded by `mdf.iter_channels()`. -/
structure Signal where
  name : String
  unit : String
  comment : String
  group_index : Nat
  channel_index : Nat
  timestamps : List ℚ
  samples : Samples
  source : Source
deriving DecidableEq

/-- The `acq_source` object of a channel group; each attribute access can
fail (modeled as `none`), which `getSource` catches. -/
structure AcqSource where
  name : Option String
  path : Option String
deriving DecidableEq

/-- A channel group record (`mdf.groups[i].channel_group`). -/
structure ChannelGroup where
  acq_name : Option String
  acq_source : Option AcqSource
deriving DecidableEq

/-- One entry of `mdf.groups`. -/
structure GroupRecord where
  channel_group : ChannelGroup
deriving DecidableEq

/-- The opened MDF-4 container: the channel-group table (`mdf.groups`,
indexed positionally), the signals in `iter_channels()` enumeration order,
and the header comment used by the manifest. -/
structure MDF where
  groups : List GroupRecord
  signals : List Signal
  header_comment : String
deriving DecidableEq

/-- Model of the external `v4c.SOURCE_TYPE_TO_STRING` constant table: an
injective rendering of the numeric code (the concrete strings of the
external library are irrelevant to every claim). -/
def SOURCE_TYPE_TO_STRING (t : Nat) : String := "SOURCE_TYPE_" ++ natToString t

/-- Model of the external `v4c.BUS_TYPE_TO_STRING` constant table. -/
def BUS_TYPE_TO_STRING (t : Nat) : String := "BUS_TYPE_" ++ natToString t

/-! ## getSource (Source Resolver) -/

/-- First lookup of `getSource`:
`mdf.groups[signal.group_index].channel_group.acq_name`, with the bare
`except:` collapsing any failure to the empty string. -/
def resolve_acq_name (mdf : MDF) (group_index : Nat) : String :=
  ((mdf.groups.get? group_index).bind fun g => g.channel_group.acq_name).getD ""

/-- Second lookup of `getSource`:
`mdf.groups[signal.group_index].channel_group.acq_source.name`. -/
def resolve_acq_source_name (mdf : MDF) (group_index : Nat) : String :=
  ((mdf.groups.get? group_index).bind fun g =>
    g.channel_group.acq_source.bind fun s => s.name).getD ""

/-- Third lookup of `getSource`:
`mdf.groups[signal.group_index].channel_group.acq_source.path`. -/
def resolve_acq_source_path (mdf : MDF) (group_index : Nat) : String :=
  ((mdf.groups.get? group_index).bind fun g =>
    g.channel_group.acq_source.bind fun s => s.path).getD ""

/-- `getSource(mdf, signal)`: three independent try/except lookups, each
falling back to `""` on its own failure. -/
def getSource (mdf : MDF) (signal : Signal) : String × String × String :=
  (resolve_acq_name mdf signal.group_index,
   resolve_acq_source_name mdf signal.group_index,
   resolve_acq_source_path mdf signal.group_index)

/-! ## extractSignalsByType (Type Classifier) -/

/-- Model of `numpy.record.pprint()`: a deterministic human-readable
rendering of the record's fields. -/
def pprint (fields : List (String × String)) : String :=
  "(" ++ String.intercalate ", " (fields.map fun f => f.1 ++ ": " ++ f.2) ++ ")"

/-- Model of `.astype(np.double)` on one numeric sample: payloads are exact
rationals, so the cast to 64-bit float is value preserving. -/
def astype_double (x : ℚ) : ℚ := x

/-- Model of `.astype(str)` on one textual sample. -/
def astype_str (s : String) : String := s

/-- `extractSignalsByType(signal)`: dtype dispatch in source order —
records first (`np.full(len(timestamps), 0.0)` and per-record `pprint`),
then numbers (`astype(np.double)` and `np.empty(len(timestamps), dtype=str)`,
whose freshly allocated zero-length strings read back empty), else strings
(`np.full(len(timestamps), 0.0)` and `astype(str)`). -/
def extractSignalsByType (signal : Signal) : List ℚ × List String :=
  match signal.samples with
  | .records rs =>
      (List.replicate signal.timestamps.length 0, rs.map pprint)
  | .numeric xs =>
      (xs.map astype_double, List.replicate signal.timestamps.length "")
  | .strings ss =>
      (List.replicate signal.timestamps.length 0, ss.map astype_str)

/-! ## Enumeration counter -/

/-- Final value of the Python loop variable `counter` after
`for counter, signal in enumerate(...)`: the last 0-based index when the
iterable is non-empty; `none` models the `NameError` raised by the
`return counter` that follows when the loop body never ran. -/
def enumerateCounter {α : Type} (xs : List α) : Option Nat :=
  match xs with
  | [] => none
  | _ => some (xs.length - 1)

/-- `dumpSignals(mdf)`: prints every signal and returns the loop counter. -/
def dumpSignals (mdf : MDF) : Option Nat :=
  enumerateCounter mdf.signals

/-! ## Columnar export path (writeParquet / processSignal / writeMetadata) -/

/-- The pyarrow table built by `processSignal`, one column per field of the
row schema; every metadata column is `np.full(len(timestamps), ...)`, i.e.
the value broadcast across all rows. -/
structure SignalTable where
  source_uuid : List String
  name : List String
  unit : List String
  timestamp : List ℚ
  value : List ℚ
  value_string : List String
  source : List String
  channel_group_acq_name : List String
  acq_source_name : List String
  acq_source_path : List String
  source_type : List String
  bus_type : List String
deriving DecidableEq

/-- The table construction inside `processSignal`'s try block. -/
def buildTable (channel_group_acq_name acq_source_name acq_source_path : String)
    (signal : Signal) (uuid : String) : SignalTable :=
  let cols := extractSignalsByType signal
  let n := signal.timestamps.length
  { source_uuid := List.replicate n uuid
    name := List.replicate n signal.name
    unit := List.replicate n signal.unit
    timestamp := signal.timestamps
    value := cols.1
    value_string := cols.2
    source := List.replicate n signal.source.name
    channel_group_acq_name := List.replicate n channel_group_acq_name
    acq_source_name := List.replicate n acq_source_name
    acq_source_path := List.replicate n acq_source_path
    source_type := List.replicate n (SOURCE_TYPE_TO_STRING signal.source.source_type)
    bus_type := List.replicate n (BUS_TYPE_TO_STRING signal.source.bus_type) }

/-- `processSignal(...)`: builds the table and hands it to
`pq.write_to_dataset` (the sink, which may fail).  The whole body is inside
`try/except Exception`, so the task always completes; the returned Bool
records whether the sink write succeeded (`false` = failure caught and
logged). -/
def processSignal (sink : SignalTable → Except String Unit)
    (channel_group_acq_name acq_source_name acq_source_path : String)
    (signal : Signal) (uuid : String) : Bool :=
  match sink (buildTable channel_group_acq_name acq_source_name acq_source_path
      signal uuid) with
  | .ok _ => true
  | .error _ => false

/-- `writeParquet(basename, mdf, uuid, target)`: dispatches one
`processSignal` task per enumerated signal to the pool, waits on every
result, then returns the loop counter.  The first component is the list of
per-task outcomes (all tasks complete, success or caught failure); the
second is the returned count, `none` when `return counter` raises because
no signal was enumerated. -/
def writeParquet (sink : SignalTable → Except String Unit) (mdf : MDF)
    (uuid : String) : List Bool × Option Nat :=
  (mdf.signals.map fun signal =>
      let s := getSource mdf signal
      processSignal sink s.1 s.2.1 s.2.2 signal uuid,
   enumerateCounter mdf.signals)

/-- One entry of the manifest's `signals` array. -/
structure SignalDescriptor where
  name : String
  unit : String
  comment : String
  group_index : Nat
  channel_index : Nat
  channel_group_acq_name : String
  acq_source_name : String
  acq_source_path : String
  source : String
  source_type : String
  bus_type : String
deriving DecidableEq

/-- The descriptor `writeMetadata` appends for one signal. -/
def signalDescriptor (mdf : MDF) (signal : Signal) : SignalDescriptor :=
  let s := getSource mdf signal
  { name := signal.name
    unit := signal.unit
    comment := signal.comment
    group_index := signal.group_index
    channel_index := signal.channel_index
    channel_group_acq_name := s.1
    acq_source_name := s.2.1
    acq_source_path := s.2.2
    source := signal.source.name
    source_type := SOURCE_TYPE_TO_STRING signal.source.source_type
    bus_type := BUS_TYPE_TO_STRING signal.source.bus_type }

/-- The JSON manifest document (`preparation_startDate`, a wall-clock
reading, is omitted; no claim mentions it). -/
structure Manifest where
  name : String
  source_uuid : String
  signals : List SignalDescriptor
  comments : String
  numberOfChunks : Nat
deriving DecidableEq

/-- `writeMetadata(basename, mdf, uuid, target, numberOfChunks)`: the
manifest document written to `{basename}-{uuid}.metadata.json`. -/
def writeMetadata (basename : String) (mdf : MDF) (uuid : String)
    (numberOfChunks : Nat) : Manifest :=
  { name := basename
    source_uuid := uuid
    signals := mdf.signals.map (signalDescriptor mdf)
    comments := mdf.header_comment
    numberOfChunks := numberOfChunks }

/-- `processFile` in parquet export mode: runs `writeParquet`, then — only
if it returned — writes the manifest with the returned count.  `none`
models the uncaught `NameError` of the unbound counter aborting the
recording before any manifest is written. -/
def processFileParquet (sink : SignalTable → Except String Unit)
    (basename : String) (mdf : MDF) (uuid : String) :
    Option (List Bool × Manifest) :=
  let r := writeParquet sink mdf uuid
  r.2.map fun n => (r.1, writeMetadata basename mdf uuid n)

/-! ## Row-oriented export path (writeCsv / processSignalCSV) -/

/-- One CSV cell: the source writes either a string or a number into each
field of a row. -/
inductive Cell
  | str (s : String)
  | num (x : ℚ)
deriving DecidableEq

/-- Digit-fold helper for the `float(...)` model: value of a digit string,
`none` on any non-digit character, `some 0` on the empty list. -/
def digitsVal (cs : List Char) : Option Nat :=
  cs.foldl (fun acc c => acc.bind fun n =>
    if c.isDigit then some (10 * n + (c.toNat - 48)) else none) (some 0)

/-- Splits a character list at the first decimal point, if any. -/
def splitFrac : List Char → List Char × Option (List Char)
  | [] => ([], none)
  | c :: rest =>
    if c = '.' then ([], some rest)
    else
      let r := splitFrac rest
      (c :: r.1, r.2)

/-- Model of the Python built-in `float(...)` applied to a string: an
optional sign, then decimal digits with an optional fractional part
(`"1"`, `"-2.5"`, `"1."`, `".5"`); anything else raises `ValueError`,
modeled as `none`. -/
def pyFloatString (s : String) : Option ℚ :=
  let signed : ℚ × List Char :=
    match s.data with
    | '-' :: rest => (-1, rest)
    | '+' :: rest => (1, rest)
    | cs => (1, cs)
  let parts := splitFrac signed.2
  match parts.2 with
  | none =>
    if parts.1.isEmpty then none
    else (digitsVal parts.1).map fun n => signed.1 * n
  | some fs =>
    if parts.1.isEmpty && fs.isEmpty then none
    else
      (digitsVal parts.1).bind fun ip =>
        (digitsVal fs).map fun fp =>
          signed.1 * ((ip : ℚ) + (fp : ℚ) / (10 : ℚ) ^ fs.length)

/-- `float(signal.samples[indx])`: a numeric sample converts to its value,
a string sample is parsed, and a record sample raises `TypeError`
(`none`). -/
def tryFloatAt (samples : Samples) (i : Nat) : Option ℚ :=
  match samples with
  | .numeric xs => xs.get? i
  | .strings ss => (ss.get? i).bind pyFloatString
  | .records _ => none

/-- The basename of the gzip file opened by `processSignalCSV`:
`f"{uuid}-{counter}.csv.gz"`. -/
def csvFilename (uuid : String) (counter : Nat) : String :=
  uuid ++ "-" ++ natToString counter ++ ".csv.gz"

/-- One gzipped CSV output file: its name, header row, and data rows. -/
structure CSVFile where
  filename : String
  header : List String
  rows : List (List Cell)
deriving DecidableEq

/-- `processSignalCSV(counter, ..., signal, uuid, targetdir, basename)`:
classifies once, opens `{uuid}-{counter}.csv.gz`, writes the fixed header,
then one row per timestamp index.  In each iteration the body first tries
`numericValue = float(signal.samples[indx])` with a bare `except` that
rebinds `numericValue` — but `numericValue` is not referenced by the
`writerow` call, which emits `numericSignals[indx]` and
`stringSignals[indx]` from the classifier instead, so the coercion result
is discarded either way (`_numericValue` below mirrors that dead
binding). -/
def processSignalCSV (counter : Nat)
    (channel_group_acq_name acq_source_name acq_source_path : String)
    (signal : Signal) (uuid : String) : CSVFile :=
  let cols := extractSignalsByType signal
  { filename := csvFilename uuid counter
    header := ["source_uuid", "name", "unit", "timestamp", "value",
      "value_string", "source", "channel_group_acq_name", "acq_source_name",
      "acq_source_path", "source_type", "bus_type"]
    rows := (List.range signal.timestamps.length).map fun indx =>
      let _numericValue : Option ℚ := tryFloatAt signal.samples indx
      [Cell.str uuid,
       Cell.str signal.name,
       Cell.str signal.unit,
       Cell.num (signal.timestamps.getD indx 0),
       Cell.num (cols.1.getD indx 0),
       Cell.str (cols.2.getD indx ""),
       Cell.str signal.source.name,
       Cell.str channel_group_acq_name,
       Cell.str acq_source_name,
       Cell.str acq_source_path,
       Cell.str (SOURCE_TYPE_TO_STRING signal.source.source_type),
       Cell.str (BUS_TYPE_TO_STRING signal.source.bus_type)] }

/-- `writeCsv(basename, mdf, uuid, target)`: sequentially runs
`processSignalCSV` for each enumerated signal, then returns the loop
counter (`none` = `NameError` when no signal was enumerated). -/
def writeCsv (mdf : MDF) (uuid : String) : List CSVFile × Option Nat :=
  (((List.range mdf.signals.length).zip mdf.signals).map fun p =>
      let s := getSource mdf p.2
      processSignalCSV p.1 s.1 s.2.1 s.2.2 p.2 uuid,
   enumerateCounter mdf.signals)

/-- `processFile` in csv export mode: runs `writeCsv`, then — only if it
returned — writes the manifest with the returned count. -/
def processFileCsv (basename : String) (mdf : MDF) (uuid : String) :
    Option (List CSVFile × Manifest) :=
  let r := writeCsv mdf uuid
  r.2.map fun n => (r.1, writeMetadata basename mdf uuid n)

/-! ## Event trace of the columnar path's main process -/

/-- Observable steps of the main process for one recording exported in
columnar mode: `dispatch i` = `pool.apply_async` for signal `i`, `wait i` =
`result[i].wait()`, `exportReturn` = `writeParquet` returns, `manifest` =
`writeMetadata` runs. -/
inductive Event
  | dispatch (i : Nat)
  | wait (i : Nat)
  | exportReturn
  | manifest
deriving DecidableEq

/-- Event order inside `writeParquet` for `n` enumerated signals: the
dispatch loop, then the wait loop over every result, then the return. -/
def writeParquetTrace (n : Nat) : List Event :=
  ((List.range n).map Event.dispatch) ++ ((List.range n).map Event.wait) ++
    [Event.exportReturn]

/-- Event order of `processFile` in parquet mode for `n` enumerated
signals: the `writeParquet` trace followed by the manifest write.  With
`n = 0` the unbound counter raises before `writeParquet` can return, so
no event at all is emitted. -/
def processFileParquetTrace (n : Nat) : List Event :=
  if n = 0 then [] else writeParquetTrace n ++ [Event.manifest]

/-! ## Concrete fixtures -/

/-- The spec's sample recording signal: numeric `Speed`, three samples. -/
def speedSignal : Signal :=
  { name := "Speed"
    unit := "km/h"
    comment := ""
    group_index := 0
    channel_index := 0
    timestamps := [0, 1/10, 1/5]
    samples := Samples.numeric [10, 41/2, 30]
    source := { name := "ECU1", source_type := 2, bus_type := 1 } }

/-- A signal whose samples are strings that do not parse as floats. -/
def textSignal : Signal :=
  { name := "Gear"
    unit := ""
    comment := ""
    group_index := 1
    channel_index := 0
    timestamps := [0, 1/10]
    samples := Samples.strings ["abc", "xyz"]
    source := { name := "ECU2", source_type := 2, bus_type := 1 } }

/-- A signal whose samples are composite records. -/
def recordSignal : Signal :=
  { name := "Frame"
    unit := ""
    comment := ""
    group_index := 0
    channel_index := 1
    timestamps := [0]
    samples := Samples.records [[("a", "1"), ("b", "2")]]
    source := { name := "ECU1", source_type := 2, bus_type := 1 } }

/-- A container that enumerates no signal at all. -/
def emptyMDF : MDF := { groups := [], signals := [], header_comment := "" }

/-- A container with exactly one (numeric) signal and no channel-group
entry. -/
def oneSignalMDF : MDF :=
  { groups := [], signals := [speedSignal], header_comment := "demo" }

/-- A container with two signals. -/
def twoSignalMDF : MDF :=
  { groups := [], signals := [speedSignal, textSignal], header_comment := "demo" }

/-- A sink whose writes always succeed. -/
def okSink : SignalTable → Except String Unit := fun _ => Except.ok ()

/-- A sink whose writes always raise. -/
def failSink : SignalTable → Except String Unit := fun _ => Except.error "boom"

/-- A sink that raises exactly on the `Speed` signal's table. -/
def failOnSpeedSink : SignalTable → Except String Unit := fun t =>
  if t.name.getD 0 "" = "Speed" then Except.error "boom" else Except.ok ()

/-! ## Claim theorems -/

/-- C4: resolving source metadata never raises; the three fields are looked
up independently (each is a standalone total lookup of the container and
group index), failure of any one lookup chain empties that field alone, and
a group index absent from the channel-group table yields three empty
strings. -/
theorem getSource_fields_independent (mdf : MDF) (signal : Signal) :
    getSource mdf signal =
      (resolve_acq_name mdf signal.group_index,
       resolve_acq_source_name mdf signal.group_index,
       resolve_acq_source_path mdf signal.group_index) ∧
    (mdf.groups.get? signal.group_index = none →
      getSource mdf signal = ("", "", "")) ∧
    ((mdf.groups.get? signal.group_index).bind
        (fun g => g.channel_group.acq_name) = none →
      (getSource mdf signal).1 = "") ∧
    ((mdf.groups.get? signal.group_index).bind
        (fun g => g.channel_group.acq_source.bind fun s => s.name) = none →
      (getSource mdf signal).2.1 = "") ∧
    ((mdf.groups.get? signal.group_index).bind
        (fun g => g.channel_group.acq_source.bind fun s => s.path) = none →
      (getSource mdf signal).2.2 = "") := by
  refine ⟨rfl, fun h => ?_, fun h => ?_, fun h => ?_, fun h => ?_⟩ <;>
    simp only [List.get?_eq_getElem?] at h <;>
    simp [getSource, resolve_acq_name, resolve_acq_source_name,
      resolve_acq_source_path, h]

/-- C4 witness: the one-signal container has no channel groups, so the
`Speed` signal's group index resolves to three empty strings. -/
theorem getSource_fields_independent_witness :
    getSource oneSignalMDF speedSignal = ("", "", "") :=
  (getSource_fields_independent oneSignalMDF speedSignal).2.1 rfl

/-- C5: classifying a purely numeric signal yields a textColumn all of
whose entries are the empty string, and a numericColumn equal to the
samples cast to 64-bit float. -/
theorem extractSignalsByType_numeric_spec (signal : Signal) (xs : List ℚ)
    (h : signal.samples = Samples.numeric xs) :
    (extractSignalsByType signal).1 = xs.map astype_double ∧
    (extractSignalsByType signal).2 =
      List.replicate signal.timestamps.length "" ∧
    ∀ t ∈ (extractSignalsByType signal).2, t = "" := by
  rcases signal with ⟨name, unit, comment, gi, ci, ts, samples, src⟩
  simp only at h
  subst h
  refine ⟨rfl, rfl, fun t ht => ?_⟩
  exact List.eq_of_mem_replicate ht

/-- C5 witness: the numeric `Speed` signal. -/
theorem extractSignalsByType_numeric_spec_witness :
    (extractSignalsByType speedSignal).1 =
      List.map astype_double [10, 41/2, 30] ∧
    (extractSignalsByType speedSignal).2 =
      List.replicate speedSignal.timestamps.length "" :=
  ⟨(extractSignalsByType_numeric_spec speedSignal _ rfl).1,
   (extractSignalsByType_numeric_spec speedSignal _ rfl).2.1⟩

/-- C6: classifying a composite/record signal yields a numericColumn all of
whose entries are `0.0`, and a textColumn whose entry at each index is the
deterministic rendering of that sample's fields. -/
theorem extractSignalsByType_records_spec (signal : Signal)
    (rs : List (List (String × String)))
    (h : signal.samples = Samples.records rs) :
    (∀ x ∈ (extractSignalsByType signal).1, x = 0) ∧
    (extractSignalsByType signal).2 = rs.map pprint := by
  rcases signal with ⟨name, unit, comment, gi, ci, ts, samples, src⟩
  simp only at h
  subst h
  refine ⟨fun x hx => ?_, rfl⟩
  exact List.eq_of_mem_replicate hx

/-- C6 witness: the record signal. -/
theorem extractSignalsByType_records_spec_witness :
    (∀ x ∈ (extractSignalsByType recordSignal).1, x = 0) ∧
    (extractSignalsByType recordSignal).2 =
      List.map pprint [[("a", "1"), ("b", "2")]] :=
  extractSignalsByType_records_spec recordSignal _ rfl

/-- C7: under the data-model invariant `len(timestamps) == len(samples)`,
both classifier columns have length `len(timestamps)`, in every one of the
three classification branches. -/
theorem extractSignalsByType_lengths (signal : Signal)
    (h : signal.timestamps.length = signal.samples.size) :
    (extractSignalsByType signal).1.length = signal.timestamps.length ∧
    (extractSignalsByType signal).2.length = signal.timestamps.length := by
  rcases signal with ⟨name, unit, comment, gi, ci, ts, samples, src⟩
  cases samples <;> simp_all [extractSignalsByType, Samples.size]

/-- C7 witness: the string-typed signal satisfies the invariant and both
columns have the timestamps' length. -/
theorem extractSignalsByType_lengths_witness :
    textSignal.timestamps.length = textSignal.samples.size ∧
    (extractSignalsByType textSignal).1.length =
      textSignal.timestamps.length ∧
    (extractSignalsByType textSignal).2.length =
      textSignal.timestamps.length :=
  ⟨rfl, extractSignalsByType_lengths textSignal rfl⟩

/-- C2 counterexample: the `Gear` signal's sample `"abc"` cannot be
converted to a float, yet the `value` field emitted for that row is the
classifier's `0.0`, not an empty placeholder. -/
theorem processSignalCSV_value_not_empty_placeholder :
    tryFloatAt textSignal.samples 0 = none ∧
    ((processSignalCSV 0 "" "" "" textSignal "u").rows.getD 0 []).getD 4
      (Cell.str "") = Cell.num 0 ∧
    Cell.num 0 ≠ Cell.str "" := by
  refine ⟨rfl, rfl, by decide⟩

/-- C2 (amended): in the row path a per-row float-coercion failure is
caught locally (never surfaced) and aborts neither the row nor the
remaining rows — the file still has one data row per timestamp — but the
`value` field emitted for the failing row is the classifier's
numericColumn entry for that index; the rebound fallback `numericValue` is
dead and discarded, so no empty placeholder is emitted. -/
theorem processSignalCSV_coercion_failure_row_kept (counter : Nat)
    (cga an ap : String) (signal : Signal) (uuid : String) (i : Nat)
    (hi : i < signal.timestamps.length)
    (_hf : tryFloatAt signal.samples i = none) :
    (processSignalCSV counter cga an ap signal uuid).rows.length =
      signal.timestamps.length ∧
    ((processSignalCSV counter cga an ap signal uuid).rows.getD i []).getD 4
      (Cell.str "") = Cell.num ((extractSignalsByType signal).1.getD i 0) := by
  constructor
  · simp [processSignalCSV]
  · simp [processSignalCSV, List.getD, List.getElem?_map, List.getElem?_range, hi]

/-- C2 witness for the amended claim: the failing `"abc"` row of the `Gear`
signal is still emitted with the classifier's value entry. -/
theorem processSignalCSV_coercion_failure_row_kept_witness :
    (0 : Nat) < textSignal.timestamps.length ∧
    tryFloatAt textSignal.samples 0 = none ∧
    ((processSignalCSV 0 "" "" "" textSignal "u").rows.length =
        textSignal.timestamps.length ∧
      ((processSignalCSV 0 "" "" "" textSignal "u").rows.getD 0 []).getD 4
        (Cell.str "") =
        Cell.num ((extractSignalsByType textSignal).1.getD 0 0)) :=
  ⟨by decide, rfl,
   processSignalCSV_coercion_failure_row_kept 0 "" "" "" textSignal "u" 0
     (by decide) rfl⟩

/-- C8: the row-mode output filename for the signal at enumeration index
`i` contains both the run id and the index's decimal rendering, and
distinct indices of the same recording never share a filename. -/
theorem csvFilename_spec (uuid : String) (i j : Nat) (h : i ≠ j) :
    (∃ r, csvFilename uuid i = uuid ++ r) ∧
    (∃ p r, csvFilename uuid i = p ++ natToString i ++ r) ∧
    csvFilename uuid i ≠ csvFilename uuid j := by
  refine ⟨⟨"-" ++ natToString i ++ ".csv.gz", ?_⟩,
    ⟨uuid ++ "-", ".csv.gz", rfl⟩, fun he => h ?_⟩
  · apply string_ext
    simp [csvFilename, string_data_append]
  · have hd := congrArg String.data he
    simp only [csvFilename, string_data_append, List.append_assoc] at hd
    have h1 := List.append_cancel_left hd
    simp only [List.singleton_append, List.cons.injEq, true_and] at h1
    have h2 := List.append_cancel_right h1
    exact natToString_injective (string_ext h2)

/-- C8 witness: indices 0 and 1 of the same run get distinct filenames. -/
theorem csvFilename_spec_witness :
    (0 : Nat) ≠ 1 ∧ csvFilename "u" 0 ≠ csvFilename "u" 1 :=
  ⟨by decide, (csvFilename_spec "u" 0 1 (by decide)).2.2⟩

/-- C1 (code bug): the export step returns the final `enumerate` counter,
which for a recording with one enumerated signal is `0`, so the manifest
records `numberOfChunks = 0` while its own `signals` array lists 1 signal —
one less than the number of signals enumerated, in both export modes; the
value is the same whether the sink write succeeds or fails. -/
theorem numberOfChunks_off_by_one :
    oneSignalMDF.signals.length = 1 ∧
    (processFileParquet okSink "rec" oneSignalMDF "u").map
      (fun r => r.2.numberOfChunks) = some 0 ∧
    (processFileParquet failSink "rec" oneSignalMDF "u").map
      (fun r => r.2.numberOfChunks) = some 0 ∧
    (processFileParquet okSink "rec" oneSignalMDF "u").map
      (fun r => r.2.signals.length) = some 1 ∧
    (processFileCsv "rec" oneSignalMDF "u").map
      (fun r => r.2.numberOfChunks) = some 0 :=
  ⟨rfl, rfl, rfl, rfl, rfl⟩

/-- C3 (code bug): a sink failure for one signal is caught inside
`processSignal`, so the task completes, the sibling signal is still
processed and still counted; a single-signal recording whose only signal
fails during the sink write still gets its manifest — but with
`numberOfChunks = 0`, not `1` as the claim states, because the returned
count is the final 0-based loop index. -/
theorem processSignal_failure_isolation :
    (writeParquet failOnSpeedSink twoSignalMDF "u").1 = [false, true] ∧
    (processFileParquet failOnSpeedSink "rec" twoSignalMDF "u").map
      (fun r => r.2.numberOfChunks) = some 1 ∧
    (processFileParquet failOnSpeedSink "rec" twoSignalMDF "u").map
      (fun r => r.2.signals.length) = some 2 ∧
    (writeParquet failSink oneSignalMDF "u").1 = [false] ∧
    (processFileParquet failSink "rec" oneSignalMDF "u").map
      (fun r => r.2.numberOfChunks) = some 0 :=
  ⟨rfl, rfl, rfl, rfl, rfl⟩

/-- C9: for a recording exported in columnar mode, every dispatched task is
waited on before `writeParquet` returns, the manifest write happens
strictly after the export step's trace, and the manifest is the last event
of the recording (it never occurs earlier). -/
theorem manifest_last_after_barrier (n i : Nat) (hn : 0 < n) (hi : i < n) :
    (∃ B, writeParquetTrace n = B ++ [Event.exportReturn] ∧
      Event.wait i ∈ B) ∧
    processFileParquetTrace n = writeParquetTrace n ++ [Event.manifest] ∧
    Event.manifest ∉ writeParquetTrace n := by
  refine ⟨⟨(List.range n).map Event.dispatch ++ (List.range n).map Event.wait,
    by simp [writeParquetTrace], ?_⟩, ?_, ?_⟩
  · exact List.mem_append_right _
      (List.mem_map_of_mem _ (List.mem_range.mpr hi))
  · simp [processFileParquetTrace, Nat.pos_iff_ne_zero.mp hn]
  · intro hmem
    simp [writeParquetTrace] at hmem

/-- C9 witness: the one-signal recording. -/
theorem manifest_last_after_barrier_witness :
    (0 : Nat) < 1 ∧
    ((∃ B, writeParquetTrace 1 = B ++ [Event.exportReturn] ∧
        Event.wait 0 ∈ B) ∧
      processFileParquetTrace 1 = writeParquetTrace 1 ++ [Event.manifest] ∧
      Event.manifest ∉ writeParquetTrace 1) :=
  ⟨by decide, manifest_last_after_barrier 1 0 (by decide) (by decide)⟩

/-- C10: on a container that enumerates zero signals, each count-returning
operation (signal dump, columnar export, row export) raises through the
never-bound loop counter (`none`), and each is defined exactly when the
recording has at least one signal. -/
theorem counting_defined_only_for_nonempty (mdf : MDF)
    (sink : SignalTable → Except String Unit) (uuid : String) :
    (mdf.signals = [] →
      dumpSignals mdf = none ∧ (writeParquet sink mdf uuid).2 = none ∧
      (writeCsv mdf uuid).2 = none) ∧
    (mdf.signals ≠ [] →
      (dumpSignals mdf).isSome ∧ ((writeParquet sink mdf uuid).2).isSome ∧
      ((writeCsv mdf uuid).2).isSome) := by
  constructor
  · intro h
    simp [dumpSignals, writeParquet, writeCsv, enumerateCounter, h]
  · intro h
    rcases mdf with ⟨g, sigs, c⟩
    cases sigs with
    | nil => simp at h
    | cons a t =>
      simp [dumpSignals, writeParquet, writeCsv, enumerateCounter]

/-- C10 witness: the empty container fails all three counting operations;
the one-signal container supports all three. -/
theorem counting_defined_only_for_nonempty_witness :
    (dumpSignals emptyMDF = none ∧
      (writeParquet okSink emptyMDF "u").2 = none ∧
      (writeCsv emptyMDF "u").2 = none) ∧
    ((dumpSignals oneSignalMDF).isSome ∧
      ((writeParquet okSink oneSignalMDF "u").2).isSome ∧
      ((writeCsv oneSignalMDF "u").2).isSome) :=
  ⟨(counting_defined_only_for_nonempty emptyMDF okSink "u").1 rfl,
   (counting_defined_only_for_nonempty oneSignalMDF okSink "u").2
     (List.cons_ne_nil _ _)⟩

end Mdf42Adx
